import Mathlib

/-!
Verification of the personaplex-ai-caller duplex audio bridge.

This file shallowly embeds the pure data transformations and the
per-pump control flow of `src/bridge.py` and `src/orchestrator.py`:
the mulaw codec tables, the resample-length accounting, the base64
wire encoding, the session registry, and the two directional pumps
of the bridge session.  Theorems about the embedded definitions
settle the frozen specification claims.
-/

set_option maxRecDepth 4000

/-! ## Mulaw codec (src/bridge.py lines 26-62, duplicated in src/orchestrator.py lines 41-70) -/

/-- Entry `i` of `MULAW_DECODE_TABLE` (bridge.py lines 26-35).  The source sets
`val = ~i` on an unbounded Python int and then extracts `val & 0x80`,
`(val >> 4) & 0x07` and `val & 0x0F`; for `0 ≤ i ≤ 255` those three
extractions depend only on the low 8 bits of `val`, which equal `255 - i`. -/
def mulaw_decode_entry (i : Nat) : Int :=
  let c := 255 - i % 256
  let sign := c &&& 0x80
  let exponent := (c >>> 4) &&& 0x07
  let mantissa := c &&& 0x0F
  let sample := (((mantissa <<< 3) + 0x84) <<< exponent) - 0x84
  if sign ≠ 0 then -(sample : Int) else (sample : Int)

/-- `mulaw_decode` (bridge.py lines 38-41): table lookup on every byte. -/
def mulaw_decode (bs : List Nat) : List Int :=
  bs.map mulaw_decode_entry

/-- Per-sample body of `mulaw_encode` (bridge.py lines 44-62).  The source
works on an int32 copy of the sample: `sign = 0x80` for negatives, magnitude
clamped with `np.minimum(|x|, 0x1FFF)` and biased by `0x84`; the exponent is
produced by the loop `for exp in range(7, 0, -1)` where each iteration
overwrites the exponent with `exp` whenever bit `exp + 3` of the biased
magnitude is set (so the last iteration to fire — the smallest such `exp` —
wins); finally `~v & 0xFF` on the packed byte `v ≤ 0xFF` equals `v ^^^ 0xFF`. -/
def mulaw_encode_sample (x : Int) : Nat :=
  let sign : Nat := if x < 0 then 0x80 else 0
  let s := min x.natAbs 0x1FFF + 0x84
  let exponent := [7, 6, 5, 4, 3, 2, 1].foldl
    (fun e exp => if s &&& (1 <<< (exp + 3)) ≠ 0 then exp else e) 0
  let mantissa := (s >>> (exponent + 3)) &&& 0x0F
  (sign ||| (exponent <<< 4) ||| mantissa) ^^^ 0xFF

/-- `mulaw_encode` (bridge.py lines 44-62) over a whole frame. -/
def mulaw_encode (pcm : List Int) : List Nat :=
  pcm.map mulaw_encode_sample

/-! ## Resample output lengths (src/bridge.py lines 65-72)

`resample_8k_to_24k` and `resample_24k_to_8k` call
`scipy.signal.resample_poly(x, up, down)`, an external dependency not in
this repository.  Its output length is computed in scipy as
`n_out = n_in * up; n_out = n_out // down + bool(n_out % down)`,
i.e. the ceiling of `n_in * up / down`; the definitions below model that
length rule. -/

/-- Output length of `scipy.signal.resample_poly` on an input of length `n`
with factors `up`/`down`: `n*up // down` plus one when the division is not
exact (scipy computes `n_out // down + bool(n_out % down)`). -/
def resamplePolyLen (n up down : Nat) : Nat :=
  n * up / down + (if n * up % down = 0 then 0 else 1)

/-- Length behaviour of `resample_8k_to_24k` (bridge.py line 67): `up=3, down=1`. -/
def resample_8k_to_24k_len (n : Nat) : Nat :=
  resamplePolyLen n 3 1

/-- Length behaviour of `resample_24k_to_8k` (bridge.py line 72): `up=1, down=3`. -/
def resample_24k_to_8k_len (n : Nat) : Nat :=
  resamplePolyLen n 1 3

/-! ## Claim theorems for the codec and resampler -/

/-- C1.  The claimed codec round-trip bound fails: the encoder's exponent
loop picks the lowest set bit of the biased magnitude instead of the highest,
so `mulaw_decode(mulaw_encode(x))` is far outside one quantization step.
Evaluating the embedded code at the failing inputs: sample `0` encodes to
byte `0xBE` which decodes to `2108` (the claimed bound at that band is `8`),
and sample `1000` round-trips to `492` (claimed bound `64`). -/
theorem c1_roundtrip_failure :
    mulaw_encode_sample 0 = 0xBE ∧
    mulaw_decode_entry (mulaw_encode_sample 0) = 2108 ∧
    mulaw_decode_entry (mulaw_encode_sample 1000) = 492 := by
  decide

/-- C2 counterexample.  The downsampler's output length is not
`⌊n / 3⌋`: on an input frame of length `1`, `resample_poly(up=1, down=3)`
returns a frame of length `1`, while `⌊1 / 3⌋ = 0`. -/
theorem c2_counterexample :
    resample_24k_to_8k_len 1 = 1 ∧ (1 : Nat) / 3 = 0 := by
  decide

/-- C2 (amended).  For every input length `n` the upsampler returns exactly
`3 * n` samples and the downsampler returns exactly `⌈n / 3⌉` samples; in
particular a frame of length `3 * n` downsamples to exactly `n` samples. -/
theorem c2_resample_length (n : Nat) :
    resample_8k_to_24k_len n = 3 * n ∧
    resample_24k_to_8k_len n = (n + 2) / 3 ∧
    resample_24k_to_8k_len (3 * n) = n := by
  refine ⟨?_, ?_, ?_⟩ <;>
    simp only [resample_8k_to_24k_len, resample_24k_to_8k_len, resamplePolyLen] <;>
    split_ifs <;> omega

/-- C9.  Saturation ceiling of the encoder: the magnitude is clamped to
`0x1FFF = 8191` before biasing, so any two int16 samples of the same sign
whose magnitudes are both at least `8191` produce the identical companded
byte. -/
theorem c9_saturation_ceiling (x y : Int)
    (hsign : x < 0 ↔ y < 0)
    (hx : 8191 ≤ x.natAbs) (hy : 8191 ≤ y.natAbs) :
    mulaw_encode_sample x = mulaw_encode_sample y := by
  simp only [mulaw_encode_sample]
  rw [Nat.min_eq_right hx, Nat.min_eq_right hy]
  by_cases h : x < 0
  · have h' : y < 0 := hsign.mp h
    simp [h, h']
  · have h' : ¬ y < 0 := fun hy' => h (hsign.mpr hy')
    simp [h, h']

/-- C9 witness: two concrete positive samples above the ceiling encode to
the same byte. -/
theorem c9_witness :
    (8191 ≤ (9000 : Int).natAbs) ∧
    mulaw_encode_sample 9000 = mulaw_encode_sample 32767 :=
  ⟨by decide, c9_saturation_ceiling 9000 32767 (by decide) (by decide) (by decide)⟩

/-- C10.  The decode table is total — every byte `0..255` decodes to a value
inside the int16 range — and flipping the sign bit of the companded byte
(`b ^^^ 0x80`) exactly negates the decoded linear sample. -/
theorem c10_decode_negation :
    ∀ b : Fin 256,
      (-32768 ≤ mulaw_decode_entry b.val ∧ mulaw_decode_entry b.val ≤ 32767) ∧
      mulaw_decode_entry (b.val ^^^ 0x80) = -(mulaw_decode_entry b.val) := by
  decide

/-! ## Base64 wire encoding (Python `base64.b64encode` / `base64.b64decode`)

The telephony media payloads travel base64-encoded.  `b64encode` models
CPython's `base64.b64encode` exactly (RFC 4045 standard alphabet with `=`
padding).  `b64decode` models `base64.b64decode(s)` with its default
`validate=False`: characters outside the alphabet (including the `=` pad)
are discarded, the data characters are consumed in groups of four, a final
group of two or three data characters needs enough `=` padding, and a final
group of one data character always raises `binascii.Error` — modelled as
`none`. -/

/-- The standard base64 alphabet, as a character list. -/
def b64Alphabet : List Char :=
  "ABCDEFGHIJKLMNOPQRSTUVWXYZabcdefghijklmnopqrstuvwxyz0123456789+/".toList

/-- Character at sextet value `n` of the base64 alphabet. -/
def b64Char (n : Nat) : Char :=
  b64Alphabet.getD n 'A'

/-- Index of a character in the base64 alphabet, `none` for characters
outside it (Python's decoder discards those). -/
def b64Index (c : Char) : Option Nat :=
  let i := b64Alphabet.indexOf c
  if i < 64 then some i else none

/-- Chunked base64 encoding of a byte list: three bytes become four
alphabet characters; a trailing group of one or two bytes is padded
with `=`. -/
def b64EncodeAux : List Nat → List Char
  | b1 :: b2 :: b3 :: rest =>
    let n1 := b1 % 256
    let n2 := b2 % 256
    let n3 := b3 % 256
    b64Char (n1 / 4) :: b64Char ((n1 % 4) * 16 + n2 / 16) ::
      b64Char ((n2 % 16) * 4 + n3 / 64) :: b64Char (n3 % 64) :: b64EncodeAux rest
  | [b1, b2] =>
    let n1 := b1 % 256
    let n2 := b2 % 256
    [b64Char (n1 / 4), b64Char ((n1 % 4) * 16 + n2 / 16), b64Char ((n2 % 16) * 4), '=']
  | [b1] =>
    let n1 := b1 % 256
    [b64Char (n1 / 4), b64Char ((n1 % 4) * 16), '=', '=']
  | [] => []

/-- Models Python `base64.b64encode(bs).decode("ascii")`. -/
def b64encode (bs : List Nat) : String :=
  ⟨b64EncodeAux bs⟩

/-- Decode base64 data-character values in groups of four; `pads` is the
number of `=` characters available to complete the final group.  A final
group of one data character is invalid (`none`), matching
`binascii.Error` in CPython. -/
def b64DecodeGroups : List Nat → Nat → Option (List Nat)
  | a :: b :: c :: d :: rest, pads =>
    (b64DecodeGroups rest pads).map
      (fun t => (a * 4 + b / 16) :: ((b % 16) * 16 + c / 4) :: ((c % 4) * 64 + d) :: t)
  | [a, b, c], pads =>
    if 1 ≤ pads then some [a * 4 + b / 16, (b % 16) * 16 + c / 4] else none
  | [a, b], pads =>
    if 2 ≤ pads then some [a * 4 + b / 16] else none
  | [_], _ => none
  | [], _ => some []

/-- Models Python `base64.b64decode(s)` (default `validate=False`):
`none` exactly where CPython raises `binascii.Error`. -/
def b64decode (s : String) : Option (List Nat) :=
  b64DecodeGroups (s.toList.filterMap b64Index)
    (s.toList.filter (· = '=')).length

/-! ## Int16 view of a byte buffer (`np.frombuffer(data, dtype=np.int16)`)

`personaplex_to_plivo` (bridge.py line 85) reinterprets the raw backend
message as little-endian signed 16-bit samples.  NumPy raises `ValueError`
when the buffer length is not a multiple of the item size, modelled as
`none`. -/

/-- Little-endian int16 view of a byte list; `none` on odd length, where
`np.frombuffer` raises. -/
def bytesToInt16 : List Nat → Option (List Int)
  | [] => some []
  | [_] => none
  | lo :: hi :: rest =>
    (bytesToInt16 rest).map (fun t =>
      (let v := lo % 256 + 256 * (hi % 256)
       if v < 32768 then (v : Int) else (v : Int) - 65536) :: t)

/-! ## Session registry (src/bridge.py lines 178-196)

`active_calls` is a process-wide Python dict from call id to `CallBridge`,
modelled as a partial map from strings to session tokens.  `bridge_handler`
stores with a plain dict assignment and removes in its `finally` block with
`active_calls.pop(call_id, None)`. -/

/-- The session registry: a partial map from call ids to session tokens
(modelling the `active_calls` dict, with `CallBridge` objects abstracted
to tokens). -/
abbrev Registry := String → Option Nat

/-- The empty registry. -/
def emptyRegistry : Registry := fun _ => none

/-- Python dict assignment `active_calls[call_id] = bridge`
(bridge.py line 191): unconditional overwrite — the source has no
duplicate-id check, no failure path and no warning branch. -/
def dictSet (reg : Registry) (k : String) (v : Nat) : Registry :=
  fun x => if x = k then some v else reg x

/-- `active_calls.pop(call_id, None)` in the `finally` block of
`bridge_handler` (bridge.py line 196): removes the entry if present,
silently does nothing otherwise. -/
def dictPop (reg : Registry) (k : String) : Registry :=
  fun x => if x = k then none else reg x

/-- The registration step of `bridge_handler` (bridge.py lines 190-191). -/
def bridgeHandlerRegister (reg : Registry) (id : String) (s : Nat) : Registry :=
  dictSet reg id s

/-! ## Messages of the two streams -/

/-- Parsed telephony-side JSON envelope: the pump dispatches on
`data.get("event")` and reads `data["media"]["payload"]` for media events;
`start`, `stop` and any other event carry no payload the pumps use. -/
inductive TelMsg where
  | media (payload : String)
  | start
  | stop
  | other
deriving DecidableEq

/-- A message received on the backend connection: binary (bytes) or text.
Both pumps test `isinstance(message, bytes)`. -/
inductive PersonaMsg where
  | binary (data : List Nat)
  | text (s : String)
deriving DecidableEq

/-- The outbound telephony envelope built by `_persona_to_plivo`
(bridge.py lines 163-170): a JSON object with the four fields below. -/
structure PlayAudio where
  event : String
  contentType : String
  sampleRate : String
  payload : String
deriving DecidableEq

/-! ## Directional pumps

The per-call session runs two concurrent pumps.  Each pump is modelled as
a fold over the ordered list of messages available on its connection,
threading the session's `running` flag.  The numeric resampling filters
and the Opus codec are external dependencies whose sample values are not
embeddable; they enter the pump models as function parameters, while all
branch and control logic is taken from the source. -/

/-- `CallBridge._plivo_to_persona` (bridge.py lines 129-153).  `tr` stands
for `resample_8k_to_24k`.  Per message: the `running` flag is checked first
(`if not self.running: break`); a whole-message `try` block catches any
per-frame exception — modelled by the only fallible stage, `b64decode`
returning `none` — logs it and continues with the next message; `media`
events are decoded, converted and sent to the backend; `start` and unknown
events are logged/ignored; `stop` clears the flag and breaks.  Returns the
list of PCM frames sent to the backend and the final `running` flag. -/
def bridgePlivoPump (tr : List Int → List Int) :
    List TelMsg → Bool → List (List Int) × Bool
  | [], r => ([], r)
  | _ :: _, false => ([], false)
  | m :: rest, true =>
    match m with
    | .media p =>
      match b64decode p with
      | none => bridgePlivoPump tr rest true
      | some bs =>
        let out := tr (mulaw_decode bs)
        let next := bridgePlivoPump tr rest true
        (out :: next.1, next.2)
    | .stop => ([], false)
    | .start => bridgePlivoPump tr rest true
    | .other => bridgePlivoPump tr rest true

/-- `plivo_to_persona` in `bridge_websocket` (orchestrator.py lines
116-156).  `enc` stands for the resample-and-Opus-encode stage
(`resample_poly`, float normalisation, `opus_writer`), applied to the
mulaw-decoded frame and yielding the encoder's output bytes.  The single
`try` block wraps the whole `while running` loop, so any exception —
modelled by `b64decode` returning `none` — terminates the pump and sets
`running = False`.  A produced Opus chunk is sent prefixed with the `0x01`
audio tag only when non-empty; `stop` clears the flag and breaks. -/
def orchPlivoPump (enc : List Int → List Nat) :
    List TelMsg → Bool → List (List Nat) × Bool
  | _, false => ([], false)
  | [], true => ([], true)
  | m :: rest, true =>
    match m with
    | .media p =>
      match b64decode p with
      | none => ([], false)
      | some bs =>
        let ob := enc (mulaw_decode bs)
        let next := orchPlivoPump enc rest true
        (if 0 < ob.length then (1 :: ob) :: next.1 else next.1, next.2)
    | .stop => ([], false)
    | .start => orchPlivoPump enc rest true
    | .other => orchPlivoPump enc rest true

/-- `personaplex_to_plivo` (bridge.py lines 83-88): reinterpret the backend
bytes as int16 PCM, downsample 24 kHz to 8 kHz (`ds` stands for
`resample_24k_to_8k`), mulaw-encode, base64-wrap.  `none` where
`np.frombuffer` raises on an odd-length buffer. -/
def personaplex_to_plivo (ds : List Int → List Int) (data : List Nat) :
    Option String :=
  (bytesToInt16 data).map fun pcm => b64encode (mulaw_encode (ds pcm))

/-- `CallBridge._persona_to_plivo` (bridge.py lines 155-174).  Per message:
`if not self.running: break`; non-empty binary messages are converted with
`personaplex_to_plivo` and sent to the telephony side as one `playAudio`
envelope; empty or non-binary messages are skipped.  The `try` block wraps
the whole loop, so a conversion error (odd-length buffer) ends the pump. -/
def personaPump (ds : List Int → List Int) (running : Bool) :
    List PersonaMsg → List PlayAudio
  | [] => []
  | m :: rest =>
    if running then
      match m with
      | .binary d =>
        if 0 < d.length then
          match personaplex_to_plivo ds d with
          | some pl =>
            { event := "playAudio", contentType := "audio/x-mulaw",
              sampleRate := "8000", payload := pl } :: personaPump ds running rest
          | none => []
        else personaPump ds running rest
      | .text _ => personaPump ds running rest
    else []

/-! ## Backend handshake (orchestrator.py lines 109-114)

After connecting to the backend, `bridge_websocket` awaits one message and
compares it against the single byte `0x00`.  A match logs "handshake OK";
anything else logs a *warning* — and in either case execution falls through
to the pump definitions and `asyncio.gather`, with no abort path. -/

/-- Whether a backend message is the expected handshake: the source checks
`isinstance(handshake, bytes) and handshake == b"\x00"`. -/
def isHandshakeByte : PersonaMsg → Bool
  | .binary d => d == [0]
  | .text _ => false

/-- Outcome of the handshake step: whether the OK branch was logged, and
whether the session aborted before starting the pumps. -/
structure HandshakeOutcome where
  okLogged : Bool
  aborted : Bool
deriving DecidableEq

/-- The handshake step of `bridge_websocket` (orchestrator.py lines
110-114): both branches only log; neither aborts. -/
def orchHandshakeStep (m : PersonaMsg) : HandshakeOutcome :=
  if isHandshakeByte m then ⟨true, false⟩ else ⟨false, false⟩

/-- Start segment of `bridge_websocket` (orchestrator.py lines 109-210):
the handshake message is received and checked first, and only then are the
pumps started (with `running = True` regardless of the handshake outcome),
so nothing is sent to the backend before the handshake is received. -/
def orchBridgeStart (enc : List Int → List Nat) (hs : PersonaMsg)
    (tel : List TelMsg) : HandshakeOutcome × (List (List Nat) × Bool) :=
  (orchHandshakeStep hs, orchPlivoPump enc tel true)

/-! ## Claim theorems for handshake, registry and pumps -/

/-- C3 counterexample.  An audio-tagged (`0x01`-prefixed) message arriving
as the first backend message — before any `0x00` handshake byte — is not a
handshake, yet the session is not aborted: `bridge_websocket` only logs a
warning and starts the pumps anyway. -/
theorem c3_counterexample :
    (orchBridgeStart (fun _ => []) (.binary [1, 42]) []).1.aborted = false ∧
    isHandshakeByte (.binary [1, 42]) = false := by
  decide

/-- C3 (amended).  The handshake check is lenient, not fatal: for every
first backend message, the session proceeds to start the pumps
(`aborted = false`); the OK branch is logged exactly when the message is
the single byte `0x00`, and any other message — audio-tagged included — is
logged as a warning and consumed.  Audio is still only sent to the backend
by the pumps, which start after the handshake message is received. -/
theorem c3_handshake_lenient (enc : List Int → List Nat) (hs : PersonaMsg)
    (tel : List TelMsg) :
    (orchBridgeStart enc hs tel).1.aborted = false ∧
    ((orchBridgeStart enc hs tel).1.okLogged = true ↔ isHandshakeByte hs = true) := by
  constructor
  · by_cases h : isHandshakeByte hs <;>
      simp [orchBridgeStart, orchHandshakeStep, h]
  · by_cases h : isHandshakeByte hs <;>
      simp [orchBridgeStart, orchHandshakeStep, h]

/-- C4 counterexample.  Registering a second session under an id already
present silently replaces the registry entry: after registering session `2`
under `"a"` in a registry already mapping `"a"` to session `1`, the lookup
returns the new session — the existing entry was not left untouched, the
registration did not fail, and the source has no warning branch. -/
theorem c4_counterexample :
    bridgeHandlerRegister (bridgeHandlerRegister emptyRegistry "a" 1) "a" 2 "a" = some 2 ∧
    bridgeHandlerRegister (bridgeHandlerRegister emptyRegistry "a" 1) "a" 2 "a" ≠ some 1 := by
  constructor
  · rfl
  · decide

/-- C4 (amended).  `bridge_handler` registers with an unconditional dict
assignment: for every registry state, the registered id maps to the new
session afterwards (a duplicate id is silently overwritten, with no
failure path and no duplicate-id warning in the source), while entries
under every other id are unchanged. -/
theorem c4_register_overwrite (reg : Registry) (id k : String) (s : Nat) :
    bridgeHandlerRegister reg id s id = some s ∧
    (k ≠ id → bridgeHandlerRegister reg id s k = reg k) := by
  constructor
  · simp [bridgeHandlerRegister, dictSet]
  · intro hk
    simp [bridgeHandlerRegister, dictSet, hk]

/-- C4 witness: concrete registration on the empty registry. -/
theorem c4_witness :
    ("b" : String) ≠ "a" ∧
    bridgeHandlerRegister emptyRegistry "a" 1 "a" = some 1 ∧
    bridgeHandlerRegister emptyRegistry "a" 1 "b" = emptyRegistry "b" :=
  ⟨by decide, (c4_register_overwrite emptyRegistry "a" "b" 1).1,
    (c4_register_overwrite emptyRegistry "a" "b" 1).2 (by decide)⟩

/-- C5 counterexample.  In the orchestrator's `plivo_to_persona` the `try`
block wraps the whole receive loop, so a malformed base64 payload (`"A"`)
is fatal: the pump stops, `running` becomes false, and the following valid
frame is never processed — although the same valid frame alone would have
produced output. -/
theorem c5_counterexample :
    orchPlivoPump (fun _ => [7]) [.media "A", .media "vg=="] true = ([], false) ∧
    orchPlivoPump (fun _ => [7]) [.media "vg=="] true = ([[1, 7]], true) := by
  constructor <;> rfl

/-- C5 (amended).  Per-frame error isolation holds in
`CallBridge._plivo_to_persona` (bridge.py), whose `try` block is inside the
loop: a frame whose payload fails to decode is logged and dropped and the
pump continues with the remaining frames exactly as if the bad frame were
absent.  In the merged orchestrator's `plivo_to_persona`, by contrast, a
frame decode error terminates the pump and sets `running` to false. -/
theorem c5_frame_isolation (tr : List Int → List Int) (enc : List Int → List Nat)
    (p : String) (rest : List TelMsg) (hbad : b64decode p = none) :
    bridgePlivoPump tr (.media p :: rest) true = bridgePlivoPump tr rest true ∧
    orchPlivoPump enc (.media p :: rest) true = ([], false) := by
  constructor
  · simp [bridgePlivoPump, hbad]
  · simp [orchPlivoPump, hbad]

/-- C5 witness: the malformed payload `"A"` at a concrete input. -/
theorem c5_witness :
    b64decode "A" = none ∧
    bridgePlivoPump (fun x => x) [TelMsg.media "A"] true =
      bridgePlivoPump (fun x => x) [] true ∧
    orchPlivoPump (fun _ => []) [TelMsg.media "A"] true = ([], false) :=
  ⟨rfl, (c5_frame_isolation (fun x => x) (fun _ => []) "A" [] rfl).1,
    (c5_frame_isolation (fun x => x) (fun _ => []) "A" [] rfl).2⟩

/-- C6.  Teardown keeps the registry consistent on every path: popping a
call id removes its entry; popping an absent id is a no-op on the whole
registry; popping twice equals popping once (idempotent teardown from
multiple paths); and entries under other ids are never affected. -/
theorem c6_teardown_idempotent (reg : Registry) (id : String) :
    dictPop reg id id = none ∧
    (reg id = none → dictPop reg id = reg) ∧
    dictPop (dictPop reg id) id = dictPop reg id ∧
    (∀ k, k ≠ id → dictPop reg id k = reg k) := by
  refine ⟨?_, ?_, ?_, ?_⟩
  · simp [dictPop]
  · intro h
    funext x
    by_cases hx : x = id <;> simp [dictPop, hx, h]
  · funext x
    by_cases hx : x = id <;> simp [dictPop, hx]
  · intro k hk
    simp [dictPop, hk]

/-- C6 witness: popping from the empty registry, where the id is absent. -/
theorem c6_witness :
    dictPop emptyRegistry "a" "a" = none ∧
    dictPop emptyRegistry "a" = emptyRegistry :=
  ⟨(c6_teardown_idempotent emptyRegistry "a").1,
    (c6_teardown_idempotent emptyRegistry "a").2.1 rfl⟩

/-- C7.  For every non-empty binary backend message received while the
session is running, `_persona_to_plivo` sends exactly one `playAudio`
envelope to the telephony side, with contentType `audio/x-mulaw`,
sampleRate `"8000"`, and payload the base64 encoding of the mulaw encoding
of the downsampled PCM carried by the message — and then continues with the
remaining messages. -/
theorem c7_playaudio_envelope (ds : List Int → List Int) (d : List Nat)
    (pcm : List Int) (rest : List PersonaMsg)
    (hne : 0 < d.length) (hpcm : bytesToInt16 d = some pcm) :
    personaPump ds true (.binary d :: rest) =
      { event := "playAudio", contentType := "audio/x-mulaw",
        sampleRate := "8000",
        payload := b64encode (mulaw_encode (ds pcm)) } :: personaPump ds true rest := by
  simp [personaPump, personaplex_to_plivo, hpcm, hne]

/-- C7 witness: one concrete two-byte backend message. -/
theorem c7_witness :
    0 < ([0, 0] : List Nat).length ∧
    bytesToInt16 [0, 0] = some [0] ∧
    personaPump (fun x => x) true [.binary [0, 0]] =
      [{ event := "playAudio", contentType := "audio/x-mulaw",
         sampleRate := "8000",
         payload := b64encode (mulaw_encode [0]) }] :=
  ⟨by decide, rfl,
    c7_playaudio_envelope (fun x => x) [0, 0] [0] [] (by decide) rfl⟩

/-- C8.  A `stop` event terminates the session: processing it with the
session running yields no further output and clears the `running` flag,
whatever telephony messages follow; and with the flag cleared neither the
telephony-to-backend pump (both iterations of it) nor the
backend-to-telephony pump forwards any audio at all. -/
theorem c8_stop_terminates :
    (∀ (tr : List Int → List Int) (rest : List TelMsg),
      bridgePlivoPump tr (.stop :: rest) true = ([], false)) ∧
    (∀ (enc : List Int → List Nat) (rest : List TelMsg),
      orchPlivoPump enc (.stop :: rest) true = ([], false)) ∧
    (∀ (tr : List Int → List Int) (msgs : List TelMsg),
      bridgePlivoPump tr msgs false = ([], false)) ∧
    (∀ (enc : List Int → List Nat) (msgs : List TelMsg),
      orchPlivoPump enc msgs false = ([], false)) ∧
    (∀ (ds : List Int → List Int) (msgs : List PersonaMsg),
      personaPump ds false msgs = []) := by
  refine ⟨fun tr rest => rfl, fun enc rest => rfl, ?_, ?_, ?_⟩
  · intro tr msgs
    cases msgs <;> rfl
  · intro enc msgs
    cases msgs <;> rfl
  · intro ds msgs
    cases msgs <;> rfl
